import Mathlib

/-!
Verification of the credential-issuance core of the
vault-plugin-database-k8s-controller repository.

The Go sources are shallowly embedded as executable Lean definitions:

* `queryHelper` and `goStringsReplace` model the statement-template
  substitution helper (src/unnamed/part_001, lines 87-93) together with
  the Go standard-library function `strings.Replace(s, old, new, -1)`
  that it calls.
* `Factory` models backend selection (src/unnamed/part_001, lines 21-66).
* The RPC client/server stub functions model src/dbs/plugin.go.
* `pathCredsCreateRead` models the credential orchestrator
  (src/unnamed/part_000, lines 31-82).
* `CacheStep`/`CacheReachable` model the mutex-guarded get-or-create
  discipline around the backend handle cache (src/unnamed/part_000,
  lines 55-62, with the cache body modelled from the spec since
  getOrCreateDBObj is not under src/).

Effectful Go code is modelled by returning an explicit event trace next
to the result, and the shared cache under concurrency is modelled as a
step relation over a state indexed by thread identifiers.
-/

/-! ## Statement-template substitution (src/unnamed/part_001, lines 87-93)

Go source:
```
func queryHelper(tpl string, data map[string]string) string {
    for k, v := range data {
        tpl = strings.Replace(tpl, fmt.Sprintf("{{%s}}", k), v, -1)
    }
    return tpl
}
```
Go map iteration order is unspecified, so the map together with one
iteration order is modelled as an association list; order-(in)dependence
claims quantify over permutations of that list.
-/

/-- Boolean test that `pat` is an initial segment of `s`. -/
def leadsWith : List Char → List Char → Bool
  | [], _ => true
  | _ :: _, [] => false
  | a :: as, b :: bs => a == b && leadsWith as bs

/-- One left-to-right scan replacing each non-overlapping occurrence of
`pat` by `rep`, exactly as Go `strings.Replace(s, pat, rep, -1)` does for a
nonempty `pat`: at each position, if `pat` leads the remaining input it is
consumed and `rep` emitted (the emitted `rep` is never re-scanned),
otherwise one character is kept.  The fuel argument starts at the input
length; every recursive call consumes at least one input character, so the
fuel never runs out on the calls made by `goStringsReplace`. -/
def strReplaceFuel (pat rep : List Char) : Nat → List Char → List Char
  | 0, s => s
  | _ + 1, [] => []
  | fuel + 1, c :: cs =>
    if leadsWith pat (c :: cs) then
      rep ++ strReplaceFuel pat rep fuel (List.drop (pat.length - 1) cs)
    else
      c :: strReplaceFuel pat rep fuel cs

/-- Go `strings.Replace(s, pat, rep, -1)` (replace every non-overlapping
occurrence, left to right, without re-scanning the replacement text).
`queryHelper` only ever passes patterns of the form `{{key}}`, which are
nonempty; the empty-pattern behaviour of the Go function (inserting at
every boundary) is never exercised and is not modelled. -/
def goStringsReplace (s pat rep : String) : String :=
  ⟨strReplaceFuel pat.data rep.data s.data.length s.data⟩

/-- The token `fmt.Sprintf("\x7b\x7b%s\x7d\x7d", k)` built by `queryHelper`
for a key `k`. -/
def bracePattern (k : String) : String :=
  "\x7b\x7b" ++ k ++ "\x7d\x7d"

/-- src/unnamed/part_001, lines 87-93: sequential key-by-key template
substitution.  `data` is the map contents in one concrete iteration
order. -/
def queryHelper (tpl : String) (data : List (String × String)) : String :=
  data.foldl (fun acc kv => goStringsReplace acc (bracePattern kv.1) kv.2) tpl

/-- Boolean substring test, used to state that a token survives
substitution. -/
def hasSubList (pat : List Char) : List Char → Bool
  | [] => leadsWith pat []
  | c :: cs => leadsWith pat (c :: cs) || hasSubList pat cs

/-- Boolean test that `pat` occurs somewhere in `s`. -/
def hasSub (s pat : String) : Bool :=
  hasSubList pat.data s.data

/-- Greedy left-to-right splitter mirroring the scan of `strReplaceFuel`:
it cuts the input at each non-overlapping occurrence of `pat`, returning
the segments between the cuts.  It is used to characterise one
replace-all pass: the pass's output is exactly these segments reassembled
with the replacement instead of the pattern. -/
def splitTokFuel (pat : List Char) : Nat → List Char → List (List Char)
  | 0, s => [s]
  | _ + 1, [] => [[]]
  | fuel + 1, c :: cs =>
    if leadsWith pat (c :: cs) then
      [] :: splitTokFuel pat fuel (List.drop (pat.length - 1) cs)
    else
      match splitTokFuel pat fuel cs with
      | [] => [[c]]
      | seg :: segs => (c :: seg) :: segs

/-- The segments of `s` between the non-overlapping occurrences of `pat`,
found greedily left to right. -/
def splitOnPat (s pat : List Char) : List (List Char) :=
  splitTokFuel pat s.length s

/-- Reassembly of segments with a separator. -/
def joinWith (sep : List Char) : List (List Char) → List Char
  | [] => []
  | [seg] => seg
  | seg :: segs => seg ++ sep ++ joinWith sep segs

theorem joinWith_cons (sep a : List Char) (l : List (List Char))
    (h : l ≠ []) : joinWith sep (a :: l) = a ++ sep ++ joinWith sep l := by
  cases l with
  | nil => exact absurd rfl h
  | cons b bs => rfl

theorem splitTokFuel_ne_nil (pat : List Char) (fuel : Nat)
    (s : List Char) : splitTokFuel pat fuel s ≠ [] := by
  cases fuel with
  | zero => simp [splitTokFuel]
  | succ fuel =>
    cases s with
    | nil => simp [splitTokFuel]
    | cons c cs =>
      simp only [splitTokFuel]
      by_cases hlw : leadsWith pat (c :: cs) = true
      · rw [if_pos hlw]
        simp
      · rw [if_neg hlw]
        cases hS : splitTokFuel pat fuel cs with
        | nil => simp
        | cons seg segs => simp

theorem leadsWith_extend (pat x y : List Char)
    (h : leadsWith pat x = true) : leadsWith pat (x ++ y) = true := by
  induction pat generalizing x with
  | nil => rfl
  | cons a as ih =>
    cases x with
    | nil => exact absurd h (by simp [leadsWith])
    | cons b bs =>
      simp only [leadsWith, Bool.and_eq_true] at h
      simp only [List.cons_append, leadsWith, Bool.and_eq_true]
      exact ⟨h.1, ih bs h.2⟩

theorem leadsWith_toDrop (pat s : List Char)
    (h : leadsWith pat s = true) :
    pat ++ List.drop pat.length s = s := by
  induction pat generalizing s with
  | nil => simp
  | cons a as ih =>
    cases s with
    | nil => exact absurd h (by simp [leadsWith])
    | cons b bs =>
      simp only [leadsWith, Bool.and_eq_true] at h
      have hab : a = b := eq_of_beq h.1
      subst hab
      simp only [List.length_cons, List.drop_succ_cons, List.cons_append]
      rw [ih bs h.2]

/-- One replace-all pass is exactly the greedy segments reassembled with
the replacement, at every fuel. -/
theorem strReplaceFuel_eq_joinWith (pat rep : List Char) :
    ∀ (fuel : Nat) (s : List Char),
      strReplaceFuel pat rep fuel s
        = joinWith rep (splitTokFuel pat fuel s) := by
  intro fuel
  induction fuel with
  | zero => intro s; rfl
  | succ fuel ih =>
    intro s
    cases s with
    | nil => rfl
    | cons c cs =>
      simp only [strReplaceFuel, splitTokFuel]
      by_cases hlw : leadsWith pat (c :: cs) = true
      · rw [if_pos hlw, if_pos hlw]
        rw [joinWith_cons rep [] _ (splitTokFuel_ne_nil _ _ _)]
        rw [ih]
        simp
      · rw [if_neg hlw, if_neg hlw]
        cases hS : splitTokFuel pat fuel cs with
        | nil => exact absurd hS (splitTokFuel_ne_nil _ _ _)
        | cons seg segs =>
          rw [ih, hS]
          cases segs with
          | nil => rfl
          | cons s2 ss => rfl

/-- Reassembling the greedy segments with the pattern itself restores the
input: the pass removes nothing but exact occurrences of the pattern. -/
theorem joinWith_splitTokFuel_self (pat : List Char) (hpat : pat ≠ []) :
    ∀ (fuel : Nat) (s : List Char), s.length ≤ fuel →
      joinWith pat (splitTokFuel pat fuel s) = s := by
  intro fuel
  induction fuel with
  | zero => intro s _; rfl
  | succ fuel ih =>
    intro s hs
    cases s with
    | nil => rfl
    | cons c cs =>
      have hcs : cs.length ≤ fuel := by
        simp only [List.length_cons] at hs
        omega
      simp only [splitTokFuel]
      by_cases hlw : leadsWith pat (c :: cs) = true
      · rw [if_pos hlw]
        rw [joinWith_cons pat [] _ (splitTokFuel_ne_nil _ _ _)]
        have hlen : (List.drop (pat.length - 1) cs).length ≤ fuel := by
          rw [List.length_drop]
          omega
        rw [ih _ hlen]
        cases pat with
        | nil => exact absurd rfl hpat
        | cons p0 pt =>
          have h2 := leadsWith_toDrop (p0 :: pt) (c :: cs) hlw
          simp only [List.length_cons, List.drop_succ_cons] at h2
          simpa using h2
      · rw [if_neg hlw]
        cases hS : splitTokFuel pat fuel cs with
        | nil => exact absurd hS (splitTokFuel_ne_nil _ _ _)
        | cons seg segs =>
          have hj : joinWith pat (seg :: segs) = cs := by
            rw [← hS]
            exact ih cs hcs
          cases segs with
          | nil =>
            simp only [joinWith] at hj ⊢
            rw [hj]
          | cons s2 ss =>
            rw [joinWith_cons pat (c :: seg) (s2 :: ss) (by simp)]
            rw [joinWith_cons pat seg (s2 :: ss) (by simp)] at hj
            simp only [List.cons_append]
            rw [hj]

/-- Every greedy segment is occurrence-free: the scan misses no
occurrence of the pattern, so within one pass every occurrence then
present is replaced, not just the first. -/
theorem splitTokFuel_segments_free (pat : List Char) (hpat : pat ≠ []) :
    ∀ (fuel : Nat) (s : List Char), s.length ≤ fuel →
      ∀ seg, seg ∈ splitTokFuel pat fuel s →
        hasSubList pat seg = false := by
  intro fuel
  induction fuel with
  | zero =>
    intro s hs seg hseg
    have hs0 : s = [] := List.eq_nil_of_length_eq_zero (Nat.le_zero.mp hs)
    subst hs0
    simp only [splitTokFuel, List.mem_singleton] at hseg
    subst hseg
    cases pat with
    | nil => exact absurd rfl hpat
    | cons p0 pt => rfl
  | succ fuel ih =>
    intro s hs seg hseg
    cases s with
    | nil =>
      simp only [splitTokFuel, List.mem_singleton] at hseg
      subst hseg
      cases pat with
      | nil => exact absurd rfl hpat
      | cons p0 pt => rfl
    | cons c cs =>
      have hcs : cs.length ≤ fuel := by
        simp only [List.length_cons] at hs
        omega
      simp only [splitTokFuel] at hseg
      by_cases hlw : leadsWith pat (c :: cs) = true
      · rw [if_pos hlw] at hseg
        rcases List.mem_cons.mp hseg with hseg | hseg
        · subst hseg
          cases pat with
          | nil => exact absurd rfl hpat
          | cons p0 pt => rfl
        · have hlen : (List.drop (pat.length - 1) cs).length ≤ fuel := by
            rw [List.length_drop]
            omega
          exact ih _ hlen seg hseg
      · rw [if_neg hlw] at hseg
        cases hS : splitTokFuel pat fuel cs with
        | nil => exact absurd hS (splitTokFuel_ne_nil _ _ _)
        | cons seg0 segs =>
          rw [hS] at hseg
          rcases List.mem_cons.mp hseg with hseg | hseg
          · subst hseg
            have hfree : hasSubList pat seg0 = false :=
              ih cs hcs seg0 (by rw [hS]; exact List.mem_cons_self _ _)
            simp only [hasSubList]
            rw [hfree, Bool.or_false]
            cases hb : leadsWith pat (c :: seg0) with
            | false => rfl
            | true =>
              have hj : joinWith pat (seg0 :: segs) = cs := by
                rw [← hS]
                exact joinWith_splitTokFuel_self pat hpat fuel cs hcs
              cases segs with
              | nil =>
                simp only [joinWith] at hj
                rw [hj] at hb
                exact absurd hb hlw
              | cons s2 ss =>
                rw [joinWith_cons pat seg0 (s2 :: ss) (by simp)] at hj
                have hext := leadsWith_extend pat (c :: seg0)
                    (pat ++ joinWith pat (s2 :: ss)) hb
                simp only [List.cons_append, ← List.append_assoc] at hext
                rw [hj] at hext
                exact absurd hext hlw
          · exact ih cs hcs seg (by rw [hS]; exact List.mem_cons_of_mem _ hseg)

/-- When the pattern does not occur at all, the greedy split is the whole
input as a single segment. -/
theorem splitTokFuel_no_occurrence (pat : List Char) (hpat : pat ≠ []) :
    ∀ (fuel : Nat) (s : List Char), s.length ≤ fuel →
      hasSubList pat s = false → splitTokFuel pat fuel s = [s] := by
  intro fuel
  induction fuel with
  | zero => intro s _ _; rfl
  | succ fuel ih =>
    intro s hs hsub
    cases s with
    | nil => rfl
    | cons c cs =>
      simp only [hasSubList, Bool.or_eq_false_iff] at hsub
      have hcs : cs.length ≤ fuel := by
        simp only [List.length_cons] at hs
        omega
      simp only [splitTokFuel]
      rw [if_neg (by simp [hsub.1])]
      rw [ih cs hcs hsub.2]

/-- The token of a key is never the empty string: it always carries its
surrounding braces. -/
theorem bracePattern_data_ne_nil (k : String) :
    (bracePattern k).data ≠ [] := by
  intro h
  simp only [bracePattern, String.data_append] at h
  simp only [List.append_eq_nil] at h
  exact absurd h.1.1 (by decide)

/-- C8 counterexample: template substitution is not order-independent for
every template and map.  Over the template `\x7b\x7ba\x7d\x7d` and the map
`a ↦ \x7b\x7bb\x7d\x7d, b ↦ x`, the iteration order `a` then `b` yields
`x`, while the order `b` then `a` yields `\x7b\x7bb\x7d\x7d`; the two
orders are permutations of the same map, and because the value substituted
for `a` contains the token of `b`, the results differ. -/
theorem query_substitution_order_dependent_counterexample :
    queryHelper "\x7b\x7ba\x7d\x7d"
        [("a", "\x7b\x7bb\x7d\x7d"), ("b", "x")] = "x"
    ∧ queryHelper "\x7b\x7ba\x7d\x7d"
        [("b", "x"), ("a", "\x7b\x7bb\x7d\x7d")] = "\x7b\x7bb\x7d\x7d"
    ∧ List.Perm [("a", "\x7b\x7bb\x7d\x7d"), ("b", "x")]
        [("b", "x"), ("a", "\x7b\x7bb\x7d\x7d")]
    ∧ queryHelper "\x7b\x7ba\x7d\x7d"
          [("a", "\x7b\x7bb\x7d\x7d"), ("b", "x")]
        ≠ queryHelper "\x7b\x7ba\x7d\x7d"
          [("b", "x"), ("a", "\x7b\x7bb\x7d\x7d")] := by
  refine ⟨by decide, by decide, ?_, by decide⟩
  exact List.Perm.swap ("b", "x") ("a", "\x7b\x7bb\x7d\x7d") []

/-- C8 (amended): substitution is plain sequential replace-all with no
escaping or quoting of the substituted values; it is order-dependent in
general, but on the specification example — substituting `name` then
`password`, or the reverse, into
`CREATE USER \x7b\x7bname\x7d\x7d WITH PASSWORD \x7b\x7bpassword\x7d\x7d`
— both iteration orders produce the identical expected result, and a value
containing quote and punctuation characters is inserted verbatim. -/
theorem query_substitution_spec_example_order_independent :
    queryHelper
        "CREATE USER \x7b\x7bname\x7d\x7d WITH PASSWORD \x7b\x7bpassword\x7d\x7d"
        [("name", "alice"), ("password", "p@ss")]
      = "CREATE USER alice WITH PASSWORD p@ss"
    ∧ queryHelper
        "CREATE USER \x7b\x7bname\x7d\x7d WITH PASSWORD \x7b\x7bpassword\x7d\x7d"
        [("password", "p@ss"), ("name", "alice")]
      = "CREATE USER alice WITH PASSWORD p@ss"
    ∧ queryHelper "\x7b\x7bv\x7d\x7d" [("v", "a\"b;--c")] = "a\"b;--c" := by
  refine ⟨by decide, by decide, by decide⟩

/-- C10 counterexample: it is not true that every `\x7b\x7bk\x7d\x7d`
token whose key is in the map is replaced.  With template
`\x7b\x7ba\x7d\x7d` and map iterated as `b ↦ y` then
`a ↦ \x7b\x7bb\x7d\x7d`, the pass for `b` runs before any `b` token
exists, and the pass for `a` then introduces the token of `b`; the output
still contains `\x7b\x7bb\x7d\x7d` although `b` is a key of the map. -/
theorem query_substitution_unreplaced_key_counterexample :
    queryHelper "\x7b\x7ba\x7d\x7d"
        [("b", "y"), ("a", "\x7b\x7bb\x7d\x7d")] = "\x7b\x7bb\x7d\x7d"
    ∧ hasSub (queryHelper "\x7b\x7ba\x7d\x7d"
        [("b", "y"), ("a", "\x7b\x7bb\x7d\x7d")]) (bracePattern "b") = true
    ∧ ("b", "y") ∈ [("b", "y"), ("a", "\x7b\x7bb\x7d\x7d")] := by
  refine ⟨by decide, by decide, by decide⟩

/-- C10 (amended): `queryHelper` applies one left-to-right replace-all
pass per key in map iteration order, and for every template and key one
pass is exactly the greedy decomposition of its input into token-free
segments: the pass's output is the segments reassembled with the value
(every occurrence of the token then present is replaced with the value
verbatim, not just the first), reassembling the segments with the token
restores the input (so nothing except exact token occurrences is
consumed — a token of a key absent from the map is never itself
targeted), a pass whose token does not occur anywhere returns its input
unchanged, and the template is returned unchanged when the map is empty.
A token whose key is in the map can still survive when another key's
value introduces it after that key's pass, as the counterexample
shows. -/
theorem query_substitution_pass_behavior :
    (∀ tpl : String, queryHelper tpl [] = tpl)
    ∧ (∀ (s k v : String),
        goStringsReplace s (bracePattern k) v
          = ⟨joinWith v.data (splitOnPat s.data (bracePattern k).data)⟩
        ∧ joinWith (bracePattern k).data
            (splitOnPat s.data (bracePattern k).data) = s.data
        ∧ (∀ seg, seg ∈ splitOnPat s.data (bracePattern k).data →
            hasSubList (bracePattern k).data seg = false))
    ∧ (∀ (s k v : String), hasSub s (bracePattern k) = false →
        goStringsReplace s (bracePattern k) v = s) := by
  refine ⟨fun _ => rfl, fun s k v => ⟨?_, ?_, ?_⟩, fun s k v hfree => ?_⟩
  · show (⟨strReplaceFuel (bracePattern k).data v.data s.data.length
        s.data⟩ : String) = _
    rw [strReplaceFuel_eq_joinWith]
    rfl
  · exact joinWith_splitTokFuel_self _ (bracePattern_data_ne_nil k) _ _
      (Nat.le_refl _)
  · intro seg hseg
    exact splitTokFuel_segments_free _ (bracePattern_data_ne_nil k) _ _
      (Nat.le_refl _) seg hseg
  · have h1 : splitTokFuel (bracePattern k).data s.data.length s.data
        = [s.data] :=
      splitTokFuel_no_occurrence _ (bracePattern_data_ne_nil k) _ _
        (Nat.le_refl _) hfree
    show (⟨strReplaceFuel (bracePattern k).data v.data s.data.length
        s.data⟩ : String) = s
    rw [strReplaceFuel_eq_joinWith, h1]
    rfl

/-- C10 witness: the pass-structure theorem applied at concrete inputs —
the empty-map identity at a concrete template, the no-occurrence identity
at a template without the key's token, and the occurrence-freeness of a
concrete greedy segment, with every hypothesis discharged by
evaluation. -/
theorem query_substitution_pass_behavior_witness :
    queryHelper "hello" [] = "hello"
    ∧ goStringsReplace "plain text" (bracePattern "a") "v" = "plain text"
    ∧ hasSubList (bracePattern "a").data "x".data = false := by
  refine ⟨query_substitution_pass_behavior.1 "hello",
    query_substitution_pass_behavior.2.2 "plain text" "a" "v" (by decide),
    (query_substitution_pass_behavior.2.1 "x" "a" "v").2.2 "x".data
      (by decide)⟩

/-! ## Backend factory (src/unnamed/part_001, lines 12-84)

`mapstructure.Decode` is an external library; it is modelled as a pair of
decoder parameters, one per decode-target type.  The decode-target
structures `sqlConnectionDetails` and `cassandraConnectionDetails` live in
repository files that are not under src/, so they are modelled as records
wrapping the raw connection-details mapping. -/

/-- Go `map[string]interface\x7b\x7d` connection-details payload, with the
interface values kept as strings (their shape is backend-specific and
outside the core). -/
def ConnectionDetails : Type := List (String × String)

deriving instance DecidableEq for ConnectionDetails

/-- src/unnamed/part_001, lines 78-84. -/
structure DatabaseConfig where
  DatabaseType : String
  ConnectionDetails : ConnectionDetails
  MaxOpenConnections : Int
  MaxIdleConnections : Int
  MaxConnectionLifetime : Int
deriving DecidableEq

/-- Modelled from the spec: the typed decode target for the PostgreSQL
connection details; its concrete fields are defined in a repository file
not under src/, so it is kept as a wrapper around the raw mapping. -/
structure sqlConnectionDetails where
  raw : ConnectionDetails
deriving DecidableEq

/-- Modelled from the spec: the typed decode target for the Cassandra
connection details; its concrete fields are defined in a repository file
not under src/. -/
structure cassandraConnectionDetails where
  raw : ConnectionDetails
deriving DecidableEq

/-- src/unnamed/part_001, lines 30-33. -/
structure sqlConnectionProducer where
  config : DatabaseConfig
  connDetails : sqlConnectionDetails
deriving DecidableEq

/-- src/unnamed/part_001, lines 35-38. -/
structure sqlCredentialsProducer where
  displayNameLen : Nat
  usernameLen : Nat
deriving DecidableEq

/-- src/unnamed/part_001, lines 52-55. -/
structure cassandraConnectionProducer where
  config : DatabaseConfig
  connDetails : cassandraConnectionDetails
deriving DecidableEq

/-- src/unnamed/part_001, line 57: an empty credentials-producer record. -/
structure cassandraCredentialsProducer where
deriving DecidableEq

/-- The concrete values behind the Go `DatabaseType` interface that
`Factory` can return (src/unnamed/part_001, lines 40-43 and 59-62). -/
inductive DatabaseType where
  | PostgreSQL (connProducer : sqlConnectionProducer)
      (credsProducer : sqlCredentialsProducer)
  | Cassandra (connProducer : cassandraConnectionProducer)
      (credsProducer : cassandraCredentialsProducer)
deriving DecidableEq

/-- src/unnamed/part_001, line 13. -/
def postgreSQLTypeName : String := "postgres"

/-- src/unnamed/part_001, line 14. -/
def cassandraTypeName : String := "cassandra"

/-- The two failure kinds of `Factory`: a `mapstructure` decode error
returned verbatim (lines 26-28 and 47-50), and
`ErrUnsupportedDatabaseType` (line 18, returned at line 65). -/
inductive FactoryError where
  | decodeErr (msg : String)
  | unsupportedDatabaseType
deriving DecidableEq

/-- The two `mapstructure.Decode` calls of `Factory`, supplied as
parameters since the decoding library is external to the repository. -/
structure FactoryDecoders where
  sqlDecode : ConnectionDetails → Except String sqlConnectionDetails
  cassandraDecode : ConnectionDetails → Except String cassandraConnectionDetails

/-- src/unnamed/part_001, lines 21-66: backend selection by exact match of
the configuration's type discriminator, with no default fallback. -/
def Factory (d : FactoryDecoders) (conf : DatabaseConfig) :
    Except FactoryError DatabaseType :=
  if conf.DatabaseType = postgreSQLTypeName then
    match d.sqlDecode conf.ConnectionDetails with
    | .error e => .error (.decodeErr e)
    | .ok details =>
        .ok (.PostgreSQL ⟨conf, details⟩ ⟨23, 63⟩)
  else if conf.DatabaseType = cassandraTypeName then
    match d.cassandraDecode conf.ConnectionDetails with
    | .error e => .error (.decodeErr e)
    | .ok details =>
        .ok (.Cassandra ⟨conf, details⟩ ⟨⟩)
  else
    .error .unsupportedDatabaseType

/-- C4: factory selection is an exact match against the closed set
`postgres`/`cassandra`: a `postgres` configuration with decodable details
yields a PostgreSQL handle, `cassandra` likewise yields a Cassandra
handle, a decode failure returns that decode error and no handle, and any
other discriminator yields `ErrUnsupportedDatabaseType` and no handle,
with no default fallback. -/
theorem factory_closed_discriminator_set (d : FactoryDecoders)
    (conf : DatabaseConfig) :
    (conf.DatabaseType = "postgres" →
      (∀ dt, d.sqlDecode conf.ConnectionDetails = .ok dt →
        Factory d conf = .ok (.PostgreSQL ⟨conf, dt⟩ ⟨23, 63⟩))
      ∧ (∀ e, d.sqlDecode conf.ConnectionDetails = .error e →
        Factory d conf = .error (.decodeErr e)))
    ∧ (conf.DatabaseType = "cassandra" →
      (∀ dt, d.cassandraDecode conf.ConnectionDetails = .ok dt →
        Factory d conf = .ok (.Cassandra ⟨conf, dt⟩ ⟨⟩))
      ∧ (∀ e, d.cassandraDecode conf.ConnectionDetails = .error e →
        Factory d conf = .error (.decodeErr e)))
    ∧ (conf.DatabaseType ≠ "postgres" → conf.DatabaseType ≠ "cassandra" →
      Factory d conf = .error .unsupportedDatabaseType) := by
  refine ⟨?_, ?_, ?_⟩
  · intro hty
    constructor
    · intro dt hdt
      simp [Factory, hty, postgreSQLTypeName, hdt]
    · intro e he
      simp [Factory, hty, postgreSQLTypeName, he]
  · intro hty
    constructor
    · intro dt hdt
      simp [Factory, hty, postgreSQLTypeName, cassandraTypeName, hdt]
    · intro e he
      simp [Factory, hty, postgreSQLTypeName, cassandraTypeName, he]
  · intro h1 h2
    simp [Factory, postgreSQLTypeName, cassandraTypeName, h1, h2]

/-- A decoder pair whose SQL decoder accepts everything and whose
Cassandra decoder always fails, used to exercise both decode outcomes in
the factory witness. -/
def factoryWitnessDecoders : FactoryDecoders :=
  ⟨fun cd => .ok ⟨cd⟩, fun _ => .error "bad details"⟩

/-- A `postgres` configuration used in the factory witness. -/
def factoryWitnessPgConf : DatabaseConfig :=
  ⟨"postgres", [("connection_url", "postgres://u@h/db")], 2, 1, 0⟩

/-- A `cassandra` configuration used in the factory witness. -/
def factoryWitnessCassConf : DatabaseConfig :=
  ⟨"cassandra", [("hosts", "h1")], 2, 1, 0⟩

/-- An unknown-discriminator configuration used in the factory witness. -/
def factoryWitnessOtherConf : DatabaseConfig :=
  ⟨"mysql", [], 0, 0, 0⟩

/-- C4 witness: the factory theorem applied at concrete configurations,
covering the postgres success branch, the cassandra decode-failure branch
and the unsupported-discriminator branch. -/
theorem factory_closed_discriminator_set_witness :
    Factory factoryWitnessDecoders factoryWitnessPgConf
      = .ok (.PostgreSQL
          ⟨factoryWitnessPgConf, ⟨[("connection_url", "postgres://u@h/db")]⟩⟩
          ⟨23, 63⟩)
    ∧ Factory factoryWitnessDecoders factoryWitnessCassConf
      = .error (.decodeErr "bad details")
    ∧ Factory factoryWitnessDecoders factoryWitnessOtherConf
      = .error .unsupportedDatabaseType := by
  refine ⟨?_, ?_, ?_⟩
  · exact (factory_closed_discriminator_set factoryWitnessDecoders
      factoryWitnessPgConf).1 rfl |>.1 ⟨[("connection_url", "postgres://u@h/db")]⟩ rfl
  · exact (factory_closed_discriminator_set factoryWitnessDecoders
      factoryWitnessCassConf).2.1 rfl |>.2 "bad details" rfl
  · exact (factory_closed_discriminator_set factoryWitnessDecoders
      factoryWitnessOtherConf).2.2 (by decide) (by decide)

/-! ## Plugin RPC stubs (src/dbs/plugin.go)

The `Statements` record is referenced by the envelopes but defined in a
dbs file not under src/; it is modelled from the spec.  `net/rpc` call
delivery is the external transport: per spec section 4.2 a synchronous
call delivers the request envelope to the matching server method and
carries the reply record and the application error back, so a client stub
composed with the server stub is modelled as direct invocation of the
server function.  Go `error` results are modelled as `Option String`
(`none` is Go `nil`). -/

/-- Modelled from the spec: the named SQL/CQL template strings bundle
(creation, revocation, rollback, renewal) of section 3; the record itself
is defined in a dbs file that is not under src/. -/
structure Statements where
  CreationStatements : String
  RevocationStatements : String
  RollbackStatements : String
  RenewStatements : String
deriving DecidableEq

/-- src/dbs/plugin.go, lines 256-261. -/
structure CreateUserRequest where
  Statements : Statements
  Username : String
  Password : String
  Expiration : String
deriving DecidableEq

/-- src/dbs/plugin.go, lines 263-267. -/
structure RenewUserRequest where
  Statements : Statements
  Username : String
  Expiration : String
deriving DecidableEq

/-- src/dbs/plugin.go, lines 269-272. -/
structure RevokeUserRequest where
  Statements : Statements
  Username : String
deriving DecidableEq

/-- src/dbs/plugin.go, lines 276-278. -/
structure GenerateUsernameResponse where
  Username : String
deriving DecidableEq

/-- src/dbs/plugin.go, lines 279-281. -/
structure GenerateExpirationResponse where
  Expiration : String
deriving DecidableEq

/-- src/dbs/plugin.go, lines 282-284. -/
structure GeneratePasswordResponse where
  Password : String
deriving DecidableEq

/-- A backend implementation of the Go `DatabaseType` interface as the
server stub consumes it: one field per contract operation.  The generator
operations return a value and an error together, mirroring the Go
two-result signatures; `Close` in Go (line 229) returns only an error. -/
structure DatabaseTypeImpl where
  typeName : String
  createUser : Statements → String → String → String → Option String
  renewUser : Statements → String → String → Option String
  revokeUser : Statements → String → Option String
  initConn : List (String × String) → Option String
  closeFn : Option String
  genUsername : String → String × Option String
  genPassword : String × Option String
  genExpiration : Int → String × Option String

/-- src/dbs/plugin.go, lines 199-202: the Type stub writes the
implementation's type string into the reply and returns no error. -/
def serverType (impl : DatabaseTypeImpl) : String × Option String :=
  (impl.typeName, none)

/-- src/dbs/plugin.go, lines 204-208: the CreateUser stub unwraps the
envelope and returns the implementation's error. -/
def serverCreateUser (impl : DatabaseTypeImpl) (args : CreateUserRequest) :
    Option String :=
  impl.createUser args.Statements args.Username args.Password args.Expiration

/-- src/dbs/plugin.go, lines 210-214. -/
def serverRenewUser (impl : DatabaseTypeImpl) (args : RenewUserRequest) :
    Option String :=
  impl.renewUser args.Statements args.Username args.Expiration

/-- src/dbs/plugin.go, lines 216-220. -/
def serverRevokeUser (impl : DatabaseTypeImpl) (args : RevokeUserRequest) :
    Option String :=
  impl.revokeUser args.Statements args.Username

/-- src/dbs/plugin.go, lines 222-226 (the stub for the connection-setup
operation named Initialize in the source). -/
def serverInitConn (impl : DatabaseTypeImpl)
    (args : List (String × String)) : Option String :=
  impl.initConn args

/-- src/dbs/plugin.go, lines 228-231: the Close stub calls the
implementation's Close, discards its result, and returns nil. -/
def serverClose (impl : DatabaseTypeImpl) : Option String :=
  let _ := impl.closeFn
  none

/-- src/dbs/plugin.go, lines 233-238: the reply's Username field and the
returned error are both taken from the implementation. -/
def serverGenerateUsername (impl : DatabaseTypeImpl) (args : String) :
    GenerateUsernameResponse × Option String :=
  (⟨(impl.genUsername args).1⟩, (impl.genUsername args).2)

/-- src/dbs/plugin.go, lines 240-245. -/
def serverGeneratePassword (impl : DatabaseTypeImpl) :
    GeneratePasswordResponse × Option String :=
  (⟨impl.genPassword.1⟩, impl.genPassword.2)

/-- src/dbs/plugin.go, lines 247-252. -/
def serverGenerateExpiration (impl : DatabaseTypeImpl) (args : Int) :
    GenerateExpirationResponse × Option String :=
  (⟨(impl.genExpiration args).1⟩, (impl.genExpiration args).2)

/-- src/dbs/plugin.go, lines 115-121 composed with the server stub: the
client stub calls Plugin.Type remotely and formats the reply as
`plugin-` followed by the remote type string (the call's error is
discarded at line 118, marked TODO in the source). -/
def clientType (impl : DatabaseTypeImpl) : String :=
  "plugin-" ++ (serverType impl).1

/-- src/dbs/plugin.go, lines 123-134 composed with the server stub: the
client wraps the arguments into a CreateUserRequest envelope and returns
the remote call's error. -/
def clientCreateUser (impl : DatabaseTypeImpl) (statements : Statements)
    (username password expiration : String) : Option String :=
  serverCreateUser impl ⟨statements, username, password, expiration⟩

/-- src/dbs/plugin.go, lines 136-146 composed with the server stub. -/
def clientRenewUser (impl : DatabaseTypeImpl) (statements : Statements)
    (username expiration : String) : Option String :=
  serverRenewUser impl ⟨statements, username, expiration⟩

/-- src/dbs/plugin.go, lines 148-157 composed with the server stub. -/
def clientRevokeUser (impl : DatabaseTypeImpl) (statements : Statements)
    (username : String) : Option String :=
  serverRevokeUser impl ⟨statements, username⟩

/-- src/dbs/plugin.go, lines 159-163 composed with the server stub. -/
def clientInitConn (impl : DatabaseTypeImpl)
    (conf : List (String × String)) : Option String :=
  serverInitConn impl conf

/-- src/dbs/plugin.go, lines 165-169 composed with the server stub: the
client Close forwards the remote call's error. -/
def clientClose (impl : DatabaseTypeImpl) : Option String :=
  serverClose impl

/-- src/dbs/plugin.go, lines 171-176 composed with the server stub:
returns the reply's Username together with the call's error. -/
def clientGenerateUsername (impl : DatabaseTypeImpl) (displayName : String) :
    String × Option String :=
  ((serverGenerateUsername impl displayName).1.Username,
   (serverGenerateUsername impl displayName).2)

/-- src/dbs/plugin.go, lines 178-183 composed with the server stub. -/
def clientGeneratePassword (impl : DatabaseTypeImpl) :
    String × Option String :=
  ((serverGeneratePassword impl).1.Password,
   (serverGeneratePassword impl).2)

/-- src/dbs/plugin.go, lines 185-190 composed with the server stub. -/
def clientGenerateExpiration (impl : DatabaseTypeImpl) (duration : Int) :
    String × Option String :=
  ((serverGenerateExpiration impl duration).1.Expiration,
   (serverGenerateExpiration impl duration).2)

/-- Events observable during `DatabasePluginClient.Close`: the remote
close request and the transport-level subprocess termination. -/
inductive PluginEvent where
  | remoteCloseCall
  | killProcess
deriving DecidableEq

/-- The state a `DatabasePluginClient` closes over, reduced to the one
datum `Close` consumes: the outcome of the remote
`databasePluginRPCClient.Close` call (the remote server stub itself
always answers nil, but the transport can fail, so the outcome is kept
arbitrary). -/
structure PluginClientHandle where
  remoteCloseErr : Option String

/-- The remote close call of src/dbs/plugin.go lines 165-169, logging the
event and yielding the call's outcome. -/
def rpcClientCloseRun (c : PluginClientHandle) (log : List PluginEvent) :
    Option String × List PluginEvent :=
  (c.remoteCloseErr, log ++ [.remoteCloseCall])

/-- `dc.client.Kill()` of src/dbs/plugin.go line 46: unconditional
subprocess termination; in Go it returns nothing, so no outcome can be
conflated with the remote error. -/
def clientKillRun (log : List PluginEvent) : List PluginEvent :=
  log ++ [.killProcess]

/-- src/dbs/plugin.go, lines 44-49:
the remote close request is sent, then the subprocess is killed, then the
remote call's error is returned. -/
def databasePluginClientClose (c : PluginClientHandle) :
    Option String × List PluginEvent :=
  let r := rpcClientCloseRun c []
  let log2 := clientKillRun r.2
  (r.1, log2)

/-- C5: for every outcome of the remote close call,
`DatabasePluginClient.Close` sends the remote close request, then kills
the subprocess unconditionally (also when the remote call errored), and
returns exactly the remote call's outcome; the kill has no return value,
so termination outcomes are never conflated with the returned error. -/
theorem plugin_client_close_kills_and_returns_remote_error
    (c : PluginClientHandle) :
    databasePluginClientClose c
      = (c.remoteCloseErr, [.remoteCloseCall, .killProcess]) := by
  rfl

/-- C6 counterexample: the server-side Close stub does not carry the
implementation's error back.  For an implementation whose Close fails
with "close failed", the stub's Close response is nil. -/
def closeErrImpl : DatabaseTypeImpl :=
  ⟨"postgres", fun _ _ _ _ => none, fun _ _ _ => none, fun _ _ => none,
   fun _ => none, some "close failed", fun d => (d, none), ("pw", none),
   fun _ => ("exp", none)⟩

/-- C6 counterexample: an implementation's Close error is discarded by the
server stub, which answers nil instead of carrying the error back. -/
theorem rpc_server_close_drops_error_counterexample :
    closeErrImpl.closeFn = some "close failed"
    ∧ serverClose closeErrImpl = none
    ∧ serverClose closeErrImpl ≠ closeErrImpl.closeFn := by
  refine ⟨rfl, rfl, by decide⟩

/-- C6 (amended): the server-side stub unwraps each envelope and invokes
the real implementation, returning the implementation's error for every
operation except Close: CreateUser, RenewUser, RevokeUser and the
connection-setup operation return the implementation's error verbatim,
the generator stubs return the implementation's value and error, Type
writes the implementation's type string and returns no error, and the
Close stub discards the implementation's error and always answers nil. -/
theorem rpc_server_stub_unwraps_and_returns_errors
    (impl : DatabaseTypeImpl) (args : CreateUserRequest)
    (rargs : RenewUserRequest) (vargs : RevokeUserRequest)
    (conf : List (String × String)) (dn : String) (dur : Int) :
    serverCreateUser impl args
      = impl.createUser args.Statements args.Username args.Password
          args.Expiration
    ∧ serverRenewUser impl rargs
      = impl.renewUser rargs.Statements rargs.Username rargs.Expiration
    ∧ serverRevokeUser impl vargs
      = impl.revokeUser vargs.Statements vargs.Username
    ∧ serverInitConn impl conf = impl.initConn conf
    ∧ serverType impl = (impl.typeName, none)
    ∧ serverGenerateUsername impl dn
      = (⟨(impl.genUsername dn).1⟩, (impl.genUsername dn).2)
    ∧ serverGeneratePassword impl
      = (⟨impl.genPassword.1⟩, impl.genPassword.2)
    ∧ serverGenerateExpiration impl dur
      = (⟨(impl.genExpiration dur).1⟩, (impl.genExpiration dur).2)
    ∧ serverClose impl = none := by
  exact ⟨rfl, rfl, rfl, rfl, rfl, rfl, rfl, rfl, rfl⟩

/-- C7 counterexample: the RPC-proxied handle is not identical to the
in-process one on Type.  For an implementation whose Type returns
`postgres`, the client stub returns `plugin-postgres`. -/
def pgTypeImpl : DatabaseTypeImpl :=
  ⟨"postgres", fun _ _ _ _ => none, fun _ _ _ => none, fun _ _ => none,
   fun _ => none, none, fun d => (d, none), ("pw", none),
   fun _ => ("exp", none)⟩

/-- C7 counterexample: calling Type through the client stub yields
`plugin-postgres` for an implementation whose own Type yields `postgres`,
so the proxied handle is not behaviourally identical to the in-process
implementation. -/
theorem rpc_client_type_not_identity_counterexample :
    pgTypeImpl.typeName = "postgres"
    ∧ clientType pgTypeImpl = "plugin-postgres"
    ∧ clientType pgTypeImpl ≠ pgTypeImpl.typeName := by
  refine ⟨rfl, rfl, by decide⟩

/-- C7 (amended): through the composed client and server stubs, every
contract operation except Type and Close behaves exactly as the wrapped
implementation — CreateUser, RenewUser, RevokeUser, the connection-setup
operation and the three generators return the implementation's results —
while Type returns the implementation's type string with `plugin-`
prepended and Close always returns nil (the server stub discards the
implementation's close error). -/
theorem rpc_stub_roundtrip_behavior (impl : DatabaseTypeImpl)
    (statements : Statements) (username password expiration dn : String)
    (conf : List (String × String)) (dur : Int) :
    clientCreateUser impl statements username password expiration
      = impl.createUser statements username password expiration
    ∧ clientRenewUser impl statements username expiration
      = impl.renewUser statements username expiration
    ∧ clientRevokeUser impl statements username
      = impl.revokeUser statements username
    ∧ clientInitConn impl conf = impl.initConn conf
    ∧ clientGenerateUsername impl dn = impl.genUsername dn
    ∧ clientGeneratePassword impl = impl.genPassword
    ∧ clientGenerateExpiration impl dur = impl.genExpiration dur
    ∧ clientType impl = "plugin-" ++ impl.typeName
    ∧ clientClose impl = none := by
  exact ⟨rfl, rfl, rfl, rfl, rfl, rfl, rfl, rfl, rfl⟩

/-! ## Credential orchestrator (src/unnamed/part_000, lines 31-82)

The helpers `b.Role`, `b.DatabaseConfig` and `b.getOrCreateDBObj` and the
database object returned by the cache live in repository files that are
not under src/, so they are modelled from the spec where marked.  Storage
read failures belong to the external Storage collaborator (spec section
1) and are not modelled; the missing-configuration failure, which the
spec makes a terminal error, is.  Side effects after the permission gate
are recorded in an explicit event trace. -/

/-- The role record as consumed by the orchestrator: target configuration
name, default lease TTL and statement bundle (spec section 3; the Go
struct is defined in a file not under src/). -/
structure Role where
  DBName : String
  DefaultTTL : Nat
  Statements : Statements
deriving DecidableEq

/-- The database configuration as consumed by the orchestrator's
permission gate: the allow-list of role names (spec section 3; the Go
struct is defined in a file not under src/). -/
structure OrchDatabaseConfig where
  AllowedRoles : List String
deriving DecidableEq

/-- The external Storage collaborator: roles and database configurations
by name. -/
structure Storage where
  roles : String → Option Role
  configs : String → Option OrchDatabaseConfig

/-- `strutil.StrListContains`: membership of a string in a list. -/
def strListContains : List String → String → Bool
  | [], _ => false
  | x :: xs, s => x == s || strListContains xs s

/-- The failure kinds of the orchestrator run: the missing-configuration
error, `logical.ErrPermissionDenied` (line 52), the wrapped
get-or-create failure (line 61, message verbatim with the source's
spelling) and a CreateUser failure returned unwrapped (line 69). -/
inductive OrchError where
  | notFoundConfig (dbName : String)
  | permissionDenied
  | getOrCreateFailed (msg : String)
  | createUserFailed (msg : String)
deriving DecidableEq

/-- The lease-bearing response (lines 72-79): payload username/password,
internal metadata username/role, and the lease TTL. -/
structure CredsResponse where
  dataUsername : String
  dataPassword : String
  internalUsername : String
  internalRole : String
  ttl : Nat
deriving DecidableEq

/-- The orchestrator run's outcome: a framework error response for an
unknown role (line 41), a returned error, or the secret response. -/
inductive CredsOutcome where
  | errResp (msg : String)
  | failure (e : OrchError)
  | success (r : CredsResponse)
deriving DecidableEq

/-- Side effects of an orchestrator run, in order: taking the backend
mutex (line 55), the cache access (line 59), and the remote CreateUser
call with the exact arguments sent (line 67). -/
inductive OrchEvent where
  | lockAcquired
  | getOrCreateDB (dbName : String)
  | createUserCall (statements : Statements) (displayName : String)
      (expiration : Nat)
deriving DecidableEq

/-- The database object returned by the cache, as the orchestrator uses
it: `CreateUser(statements, displayName, expiration)` yielding
`(username, password)` or an error (line 67).  The concrete
implementations are in repository files not under src/. -/
structure DBObj where
  createUser : Statements → String → Nat → Except String (String × String)

/-- Modelled from the spec: a backend object whose CreateUser derives the
credentials from the handle's own generators — "generatedUsername/
generatedPassword come from the handle's own GenerateUsername/
GeneratePassword, seeded with the caller's display name" (spec section
4.5 step 6); the concrete backend CreateUser bodies are not under
src/. -/
def specBackendObj (genUsername : String → Except String String)
    (genPassword : Except String String) : DBObj :=
  ⟨fun _ displayName _ =>
    match genUsername displayName with
    | .error e => .error e
    | .ok u =>
      match genPassword with
      | .error e => .error e
      | .ok p => .ok (u, p)⟩

/-- Modelled from the spec: `b.DatabaseConfig` fetches the configuration
by name and a missing entry is a terminal error — "Missing →
NotFoundConfig, terminal" (spec section 4.5 step 2), "a dangling
reference is a runtime error, never silently ignored" (section 3).  The
helper's body is in a repository file not under src/. -/
def databaseConfigFetch (stor : Storage) (name : String) :
    Except OrchError OrchDatabaseConfig :=
  match stor.configs name with
  | none => .error (.notFoundConfig name)
  | some c => .ok c

/-- The mutable collaborators of one orchestrator run: the backend handle
cache access (line 59; the cache itself is analysed separately as a step
relation) and the current time (line 64). -/
structure OrchEnv where
  getOrCreateDBObj : String → Except String DBObj
  now : Nat

/-- src/unnamed/part_000, lines 31-82: one run of the credential
orchestrator, returning the outcome and the ordered trace of the side
effects it performed. -/
def pathCredsCreateRead (env : OrchEnv) (stor : Storage)
    (name displayName : String) : CredsOutcome × List OrchEvent :=
  match stor.roles name with
  | none => (.errResp ("unknown role: " ++ name), [])
  | some role =>
    match databaseConfigFetch stor role.DBName with
    | .error e => (.failure e, [])
    | .ok dbConfig =>
      if !strListContains dbConfig.AllowedRoles "*"
          && !strListContains dbConfig.AllowedRoles name then
        (.failure .permissionDenied, [])
      else
        match env.getOrCreateDBObj role.DBName with
        | .error e =>
          (.failure (.getOrCreateFailed
              ("cound not retrieve db with name: " ++ role.DBName
                ++ ", got error: " ++ e)),
           [.lockAcquired, .getOrCreateDB role.DBName])
        | .ok db =>
          let expiration := env.now + role.DefaultTTL
          match db.createUser role.Statements displayName expiration with
          | .error e =>
            (.failure (.createUserFailed e),
             [.lockAcquired, .getOrCreateDB role.DBName,
              .createUserCall role.Statements displayName expiration])
          | .ok (username, password) =>
            (.success ⟨username, password, username, name, role.DefaultTTL⟩,
             [.lockAcquired, .getOrCreateDB role.DBName,
              .createUserCall role.Statements displayName expiration])

/-- C1: issuance succeeds only when the configuration's allow-list
contains `*` or the role's name; when it contains neither, the run
terminates with permission denied, with an empty effect trace — the
mutex is never taken, the cache is never consulted and no CreateUser is
issued. -/
theorem creds_create_allow_list_gate (env : OrchEnv) (stor : Storage)
    (name displayName : String) :
    (∀ r evs, pathCredsCreateRead env stor name displayName
        = (.success r, evs) →
      ∃ role config, stor.roles name = some role
        ∧ stor.configs role.DBName = some config
        ∧ (strListContains config.AllowedRoles "*" = true
           ∨ strListContains config.AllowedRoles name = true))
    ∧ (∀ role config, stor.roles name = some role →
        stor.configs role.DBName = some config →
        strListContains config.AllowedRoles "*" = false →
        strListContains config.AllowedRoles name = false →
        pathCredsCreateRead env stor name displayName
          = (.failure .permissionDenied, [])) := by
  constructor
  · intro r evs h
    unfold pathCredsCreateRead at h
    cases hrole : stor.roles name with
    | none => simp [hrole] at h
    | some role =>
      cases hconf : stor.configs role.DBName with
      | none => simp [hrole, databaseConfigFetch, hconf] at h
      | some config =>
        refine ⟨role, config, rfl, hconf, ?_⟩
        simp only [hrole, databaseConfigFetch, hconf] at h
        by_cases hstar : strListContains config.AllowedRoles "*" = true
        · exact Or.inl hstar
        · by_cases hname : strListContains config.AllowedRoles name = true
          · exact Or.inr hname
          · simp [Bool.not_eq_true] at hstar hname
            simp [hstar, hname] at h
  · intro role config hrole hconf hstar hname
    unfold pathCredsCreateRead
    simp [hrole, databaseConfigFetch, hconf, hstar, hname]

/-- A storage with one role `r1` targeting `db1` and a configuration for
`db1` whose allow-list names only `other`, used in the C1 witness. -/
def gateWitnessStorage : Storage :=
  ⟨fun n => if n = "r1" then some ⟨"db1", 5, ⟨"c", "v", "b", "r"⟩⟩ else none,
   fun n => if n = "db1" then some ⟨["other"]⟩ else none⟩

/-- An environment whose cache always fails, used in witnesses where the
run must stop before reaching the cache. -/
def gateWitnessEnv : OrchEnv :=
  ⟨fun _ => .error "unreachable", 100⟩

/-- C1 witness: the allow-list gate theorem applied at a concrete storage
whose configuration allows only the role `other`: the request for role
`r1` is denied with an empty effect trace. -/
theorem creds_create_allow_list_gate_witness :
    pathCredsCreateRead gateWitnessEnv gateWitnessStorage "r1" "disp"
      = (.failure .permissionDenied, []) := by
  exact (creds_create_allow_list_gate gateWitnessEnv gateWitnessStorage
      "r1" "disp").2 ⟨"db1", 5, ⟨"c", "v", "b", "r"⟩⟩ ⟨["other"]⟩
      (by decide) (by decide) (by decide) (by decide)

/-- C3: when the role exists but its referenced database configuration is
missing from storage, the run fails with the terminal
missing-configuration error and an empty effect trace — before any
authorization check, cache access or backend call; the dangling
reference is never silently ignored. -/
theorem creds_create_missing_config_not_found (env : OrchEnv)
    (stor : Storage) (name displayName : String) (role : Role) :
    stor.roles name = some role →
    stor.configs role.DBName = none →
    pathCredsCreateRead env stor name displayName
      = (.failure (.notFoundConfig role.DBName), []) := by
  intro hrole hconf
  unfold pathCredsCreateRead
  simp [hrole, databaseConfigFetch, hconf]

/-- A storage with one role `r1` targeting the missing configuration
`db-gone`, used in the C3 witness. -/
def danglingWitnessStorage : Storage :=
  ⟨fun n => if n = "r1" then some ⟨"db-gone", 5, ⟨"c", "v", "b", "r"⟩⟩
    else none,
   fun _ => none⟩

/-- C3 witness: the missing-configuration theorem applied at a concrete
storage with a dangling role reference. -/
theorem creds_create_missing_config_not_found_witness :
    pathCredsCreateRead gateWitnessEnv danglingWitnessStorage "r1" "disp"
      = (.failure (.notFoundConfig "db-gone"), []) := by
  exact creds_create_missing_config_not_found gateWitnessEnv
    danglingWitnessStorage "r1" "disp" ⟨"db-gone", 5, ⟨"c", "v", "b", "r"⟩⟩
    (by decide) (by decide)

/-- C2 (amended): when the role, configuration and allow-list checks pass
and the backend object is the spec-modelled one whose CreateUser derives
the credentials from the handle's own generators, a successful run sends
CreateUser the role's statements, the caller's display name and the
expiration `now + role.DefaultTTL`, and responds with payload
`(username, password)` as generated (the username seeded with the display
name), internal metadata `(username, role name)` and lease TTL equal to
the role's default TTL. -/
theorem creds_create_response_shape (env : OrchEnv) (stor : Storage)
    (name displayName : String) (role : Role) (config : OrchDatabaseConfig)
    (genUsername : String → Except String String)
    (genPassword : Except String String) (u p : String) :
    stor.roles name = some role →
    stor.configs role.DBName = some config →
    (strListContains config.AllowedRoles "*" = true
      ∨ strListContains config.AllowedRoles name = true) →
    env.getOrCreateDBObj role.DBName
      = .ok (specBackendObj genUsername genPassword) →
    genUsername displayName = .ok u →
    genPassword = .ok p →
    pathCredsCreateRead env stor name displayName
      = (.success ⟨u, p, u, name, role.DefaultTTL⟩,
         [.lockAcquired, .getOrCreateDB role.DBName,
          .createUserCall role.Statements displayName
            (env.now + role.DefaultTTL)]) := by
  intro hrole hconf hallow hdb hu hp
  unfold pathCredsCreateRead
  rcases hallow with h | h <;>
    simp [hrole, databaseConfigFetch, hconf, h, hdb, specBackendObj, hu, hp]

/-- A storage with one role `r1` (target `db1`, default TTL 5) whose
configuration allow-list names `r1`, used for the C2 witness and
counterexample. -/
def credsWitnessStorage : Storage :=
  ⟨fun n => if n = "r1" then some ⟨"db1", 5, ⟨"c", "v", "b", "r"⟩⟩ else none,
   fun n => if n = "db1" then some ⟨["r1"]⟩ else none⟩

/-- An environment whose cache returns the spec-modelled backend object
generating the fixed credentials `u-gen`/`p-gen`, at time 100. -/
def credsWitnessEnv : OrchEnv :=
  ⟨fun n => if n = "db1"
      then .ok (specBackendObj (fun _ => .ok "u-gen") (.ok "p-gen"))
      else .error "no such db",
   100⟩

/-- C2 counterexample: the generated username and password are not sent
to CreateUser.  In a successful concrete run the only string argument of
the CreateUser call recorded in the trace is the caller's display name
`disp`; the generated credentials `u-gen`/`p-gen` differ from it and
first appear in CreateUser's result, from which the response is built. -/
theorem creds_create_username_not_sent_counterexample :
    pathCredsCreateRead credsWitnessEnv credsWitnessStorage "r1" "disp"
      = (.success ⟨"u-gen", "p-gen", "u-gen", "r1", 5⟩,
         [.lockAcquired, .getOrCreateDB "db1",
          .createUserCall ⟨"c", "v", "b", "r"⟩ "disp" 105])
    ∧ "u-gen" ≠ "disp" ∧ "p-gen" ≠ "disp" := by
  refine ⟨by decide, by decide, by decide⟩

/-- C2 witness: the response-shape theorem applied at the concrete
storage and environment, with every hypothesis discharged by
evaluation. -/
theorem creds_create_response_shape_witness :
    pathCredsCreateRead credsWitnessEnv credsWitnessStorage "r1" "disp"
      = (.success ⟨"u-gen", "p-gen", "u-gen", "r1", 5⟩,
         [.lockAcquired, .getOrCreateDB "db1",
          .createUserCall ⟨"c", "v", "b", "r"⟩ "disp" 105]) := by
  exact creds_create_response_shape credsWitnessEnv credsWitnessStorage
    "r1" "disp" ⟨"db1", 5, ⟨"c", "v", "b", "r"⟩⟩ ⟨["r1"]⟩
    (fun _ => .ok "u-gen") (.ok "p-gen") "u-gen" "p-gen"
    (by decide) (by decide) (Or.inr (by decide)) rfl rfl rfl

/-! ## Backend handle cache under concurrency (src/unnamed/part_000, lines 55-62)

The orchestrator takes the backend-level mutex (`b.Lock()` at line 55,
released by the deferred unlock) around `getOrCreateDBObj`.  The body of
`getOrCreateDBObj` is in a repository file not under src/ and is modelled
from the spec, section 4.4: look the name up in the cache and return a
hit; on a miss invoke the factory and insert into the cache on success
before returning (nothing is inserted on a construction error).

Each request thread is modelled with three program points: before the
mutex, holding the mutex with the cache lookup performed, and finished.
Acquiring the mutex requires it to be free, which is exactly what
`sync.Mutex` guarantees; the factory outcome `fac` is a parameter and is
deterministic, as `Factory` is for a fixed configuration.  All requests
target the same configuration name, so the cache is a single optional
slot and `createCount` counts factory invocations for that name. -/

/-- Program point of one request thread inside the lock discipline. -/
inductive CachePhase where
  | idle
  | lookedUp (found : Option DatabaseType)
  | done
deriving DecidableEq

/-- One request thread: its program point and, once finished, the handle
or error it observed. -/
structure CacheThread where
  phase : CachePhase
  res : Option (Except String DatabaseType)

/-- Pointwise thread update. -/
def updThreads {n : Nat} (ts : Fin n → CacheThread) (i : Fin n)
    (v : CacheThread) : Fin n → CacheThread :=
  fun j => if j = i then v else ts j

/-- Global state: the mutex owner, the cache slot for the one
configuration name, the number of factory invocations, and the thread
states. -/
structure CacheSt (n : Nat) where
  lockHeld : Option (Fin n)
  conn : Option DatabaseType
  createCount : Nat
  threads : Fin n → CacheThread

/-- Initial state: mutex free, cache empty, no constructions, all
threads before the mutex. -/
def initCacheSt (n : Nat) : CacheSt n :=
  ⟨none, none, 0, fun _ => ⟨.idle, none⟩⟩

/-- Interleaving semantics of N concurrent `pathCredsCreateRead` runs at
the cache: `lockLookup` is `b.Lock()` followed by the cache lookup under
the lock; the three `finish` steps are the hit return, the
construct-and-insert on a miss, and the construction error on a miss,
each followed by the deferred unlock. -/
inductive CacheStep (fac : Except String DatabaseType) {n : Nat} :
    CacheSt n → CacheSt n → Prop where
  | lockLookup (s : CacheSt n) (i : Fin n)
      (hp : (s.threads i).phase = .idle) (hl : s.lockHeld = none) :
      CacheStep fac s
        ⟨some i, s.conn, s.createCount,
         updThreads s.threads i ⟨.lookedUp s.conn, none⟩⟩
  | finishHit (s : CacheSt n) (i : Fin n) (h : DatabaseType)
      (hp : (s.threads i).phase = .lookedUp (some h))
      (hl : s.lockHeld = some i) :
      CacheStep fac s
        ⟨none, s.conn, s.createCount,
         updThreads s.threads i ⟨.done, some (.ok h)⟩⟩
  | finishMissOk (s : CacheSt n) (i : Fin n) (h : DatabaseType)
      (hp : (s.threads i).phase = .lookedUp none)
      (hl : s.lockHeld = some i) (hf : fac = .ok h) :
      CacheStep fac s
        ⟨none, some h, s.createCount + 1,
         updThreads s.threads i ⟨.done, some (.ok h)⟩⟩
  | finishMissErr (s : CacheSt n) (i : Fin n) (e : String)
      (hp : (s.threads i).phase = .lookedUp none)
      (hl : s.lockHeld = some i) (hf : fac = .error e) :
      CacheStep fac s
        ⟨none, s.conn, s.createCount + 1,
         updThreads s.threads i ⟨.done, some (.error e)⟩⟩

/-- States reachable from the initial state by interleaved steps. -/
inductive CacheReachable (fac : Except String DatabaseType) (n : Nat) :
    CacheSt n → Prop where
  | init : CacheReachable fac n (initCacheSt n)
  | step {s s2 : CacheSt n} : CacheReachable fac n s →
      CacheStep fac s s2 → CacheReachable fac n s2

/-- Inductive invariant for a succeeding factory: the cache slot is
filled exactly when one construction has happened and then holds the
factory's handle; every finished thread observed that handle, and a
finished thread implies at least one construction; a thread past its
lookup holds the mutex and its lookup snapshot is the current slot. -/
def CacheInvOk {n : Nat} (h0 : DatabaseType) (s : CacheSt n) : Prop :=
  ((s.conn = none ∧ s.createCount = 0)
    ∨ (s.conn = some h0 ∧ s.createCount = 1))
  ∧ (∀ i, (s.threads i).phase = .done →
      (s.threads i).res = some (.ok h0) ∧ 1 ≤ s.createCount)
  ∧ (∀ i f, (s.threads i).phase = .lookedUp f →
      s.lockHeld = some i ∧ f = s.conn)

/-- Inductive invariant for a failing factory: nothing is ever inserted
and every finished thread observed the same construction error; lock
coherence as in the success case. -/
def CacheInvErr {n : Nat} (e0 : String) (s : CacheSt n) : Prop :=
  s.conn = none
  ∧ (∀ i, (s.threads i).phase = .done →
      (s.threads i).res = some (.error e0))
  ∧ (∀ i f, (s.threads i).phase = .lookedUp f →
      s.lockHeld = some i ∧ f = s.conn)

theorem cacheInvOk_init {n : Nat} (h0 : DatabaseType) :
    CacheInvOk h0 (initCacheSt n) := by
  refine ⟨Or.inl ⟨rfl, rfl⟩, ?_, ?_⟩
  · intro i hi
    simp [initCacheSt] at hi
  · intro i f hi
    simp [initCacheSt] at hi

theorem cacheInvOk_step {n : Nat} {h0 : DatabaseType} {s s2 : CacheSt n}
    (hinv : CacheInvOk h0 s) (hs : CacheStep (.ok h0) s s2) :
    CacheInvOk h0 s2 := by
  obtain ⟨hc, hdone, hlook⟩ := hinv
  cases hs with
  | lockLookup i hp hl =>
    refine ⟨hc, ?_, ?_⟩
    · intro j hj
      simp only [updThreads] at hj ⊢
      by_cases hji : j = i
      · rw [if_pos hji] at hj
        cases hj
      · rw [if_neg hji] at hj
        rw [if_neg hji]
        exact hdone j hj
    · intro j f hj
      simp only [updThreads] at hj
      by_cases hji : j = i
      · rw [if_pos hji] at hj
        injection hj with hf2
        subst hf2
        exact ⟨by rw [hji], rfl⟩
      · rw [if_neg hji] at hj
        have hlk := (hlook j f hj).1
        rw [hl] at hlk
        cases hlk
  | finishHit i h hp hl =>
    have hcs : some h = s.conn := (hlook i (some h) hp).2
    have hconn : s.conn = some h0 ∧ s.createCount = 1 := by
      rcases hc with ⟨h1, _⟩ | h2
      · rw [h1] at hcs; cases hcs
      · exact h2
    have hh : h = h0 := Option.some.inj (hcs.trans hconn.1)
    subst hh
    refine ⟨Or.inr hconn, ?_, ?_⟩
    · intro j hj
      simp only [updThreads] at hj ⊢
      by_cases hji : j = i
      · rw [if_pos hji]
        refine ⟨rfl, ?_⟩
        rw [hconn.2]
      · rw [if_neg hji] at hj
        rw [if_neg hji]
        exact hdone j hj
    · intro j f hj
      simp only [updThreads] at hj
      by_cases hji : j = i
      · rw [if_pos hji] at hj
        cases hj
      · rw [if_neg hji] at hj
        have hlk := (hlook j f hj).1
        rw [hl] at hlk
        exact absurd (Option.some.inj hlk).symm hji
  | finishMissOk i h hp hl hf =>
    have hcs : (none : Option DatabaseType) = s.conn := (hlook i none hp).2
    have hconn : s.conn = none := hcs.symm
    have hcount : s.createCount = 0 := by
      rcases hc with ⟨_, h1⟩ | ⟨h2, _⟩
      · exact h1
      · rw [hconn] at h2; cases h2
    have hh : h = h0 := by
      injection hf with hx
      exact hx.symm
    subst hh
    refine ⟨Or.inr ⟨rfl, by rw [hcount]⟩, ?_, ?_⟩
    · intro j hj
      simp only [updThreads] at hj ⊢
      by_cases hji : j = i
      · rw [if_pos hji]
        exact ⟨rfl, Nat.le_add_left 1 s.createCount⟩
      · rw [if_neg hji] at hj
        rw [if_neg hji]
        exact ⟨(hdone j hj).1, Nat.le_add_left 1 s.createCount⟩
    · intro j f hj
      simp only [updThreads] at hj
      by_cases hji : j = i
      · rw [if_pos hji] at hj
        cases hj
      · rw [if_neg hji] at hj
        have hlk := (hlook j f hj).1
        rw [hl] at hlk
        exact absurd (Option.some.inj hlk).symm hji
  | finishMissErr i e hp hl hf =>
    cases hf

theorem cacheInvOk_reachable {n : Nat} {h0 : DatabaseType} {s : CacheSt n}
    (hr : CacheReachable (.ok h0) n s) : CacheInvOk h0 s := by
  induction hr with
  | init => exact cacheInvOk_init h0
  | step hr hs ih => exact cacheInvOk_step ih hs

theorem cacheInvErr_init {n : Nat} (e0 : String) :
    CacheInvErr e0 (initCacheSt n) := by
  refine ⟨rfl, ?_, ?_⟩
  · intro i hi
    simp [initCacheSt] at hi
  · intro i f hi
    simp [initCacheSt] at hi

theorem cacheInvErr_step {n : Nat} {e0 : String} {s s2 : CacheSt n}
    (hinv : CacheInvErr e0 s) (hs : CacheStep (.error e0) s s2) :
    CacheInvErr e0 s2 := by
  obtain ⟨hc, hdone, hlook⟩ := hinv
  cases hs with
  | lockLookup i hp hl =>
    refine ⟨hc, ?_, ?_⟩
    · intro j hj
      simp only [updThreads] at hj ⊢
      by_cases hji : j = i
      · rw [if_pos hji] at hj
        cases hj
      · rw [if_neg hji] at hj
        rw [if_neg hji]
        exact hdone j hj
    · intro j f hj
      simp only [updThreads] at hj
      by_cases hji : j = i
      · rw [if_pos hji] at hj
        injection hj with hf2
        subst hf2
        exact ⟨by rw [hji], rfl⟩
      · rw [if_neg hji] at hj
        have hlk := (hlook j f hj).1
        rw [hl] at hlk
        cases hlk
  | finishHit i h hp hl =>
    have hcs : some h = s.conn := (hlook i (some h) hp).2
    rw [hc] at hcs
    cases hcs
  | finishMissOk i h hp hl hf =>
    cases hf
  | finishMissErr i e hp hl hf =>
    have he : e = e0 := by
      injection hf with hx
      exact hx.symm
    subst he
    refine ⟨hc, ?_, ?_⟩
    · intro j hj
      simp only [updThreads] at hj ⊢
      by_cases hji : j = i
      · rw [if_pos hji]
      · rw [if_neg hji] at hj
        rw [if_neg hji]
        exact hdone j hj
    · intro j f hj
      simp only [updThreads] at hj
      by_cases hji : j = i
      · rw [if_pos hji] at hj
        cases hj
      · rw [if_neg hji] at hj
        have hlk := (hlook j f hj).1
        rw [hl] at hlk
        exact absurd (Option.some.inj hlk).symm hji

theorem cacheInvErr_reachable {n : Nat} {e0 : String} {s : CacheSt n}
    (hr : CacheReachable (.error e0) n s) : CacheInvErr e0 s := by
  induction hr with
  | init => exact cacheInvErr_init e0
  | step hr hs ih => exact cacheInvErr_step ih hs

/-- C9 (amended): under the backend mutex, for any interleaving of N
concurrent requests for the same uninitialized configuration name, when
construction succeeds the factory runs at most once — exactly once when
all requests have finished — and every finished request observed that
same handle; when construction fails, nothing is ever inserted into the
cache and every finished request observed the same construction error
(the factory itself may be re-invoked by later requests, as the
counterexample shows). -/
theorem cache_construct_at_most_once (n : Nat) (s : CacheSt n) :
    (∀ h0 : DatabaseType, CacheReachable (.ok h0) n s →
      s.createCount ≤ 1
      ∧ (∀ i, (s.threads i).phase = .done →
          (s.threads i).res = some (.ok h0))
      ∧ ((∀ i, (s.threads i).phase = .done) → 0 < n →
          s.createCount = 1))
    ∧ (∀ e0 : String, CacheReachable (.error e0) n s →
      s.conn = none
      ∧ (∀ i, (s.threads i).phase = .done →
          (s.threads i).res = some (.error e0))) := by
  constructor
  · intro h0 hr
    obtain ⟨hc, hdone, _⟩ := cacheInvOk_reachable hr
    have hle : s.createCount ≤ 1 := by
      rcases hc with ⟨_, h1⟩ | ⟨_, h1⟩ <;> omega
    refine ⟨hle, fun i hi => (hdone i hi).1, ?_⟩
    intro hall hn
    have h1 := (hdone ⟨0, hn⟩ (hall ⟨0, hn⟩)).2
    exact Nat.le_antisymm hle h1
  · intro e0 hr
    obtain ⟨hc, hdone, _⟩ := cacheInvErr_reachable hr
    exact ⟨hc, hdone⟩

/-- The concrete handle used in the cache witness. -/
def cacheWitnessHandle : DatabaseType :=
  .PostgreSQL ⟨factoryWitnessPgConf, ⟨[]⟩⟩ ⟨23, 63⟩

/-- The final state of a complete one-thread success run: lock free,
slot filled, one construction, the thread finished with the handle. -/
def cacheWitnessFinal : CacheSt 1 :=
  ⟨none, some cacheWitnessHandle, 1,
   updThreads (updThreads (initCacheSt 1).threads 0 ⟨.lookedUp none, none⟩)
     0 ⟨.done, some (.ok cacheWitnessHandle)⟩⟩

/-- C9 witness: the at-most-once theorem applied to a concrete reachable
complete run with a succeeding factory: the construction count is
exactly one and the thread observed the constructed handle. -/
theorem cache_construct_at_most_once_witness :
    cacheWitnessFinal.createCount = 1
    ∧ (cacheWitnessFinal.threads 0).res = some (.ok cacheWitnessHandle) := by
  have hr : CacheReachable (.ok cacheWitnessHandle) 1 cacheWitnessFinal :=
    CacheReachable.step
      (CacheReachable.step CacheReachable.init
        (CacheStep.lockLookup (initCacheSt 1) 0 rfl rfl))
      (CacheStep.finishMissOk _ 0 cacheWitnessHandle rfl rfl rfl)
  have h := (cache_construct_at_most_once 1 cacheWitnessFinal).1
      cacheWitnessHandle hr
  refine ⟨?_, h.2.1 0 rfl⟩
  refine h.2.2 ?_ (by decide)
  intro i
  have hi : i = 0 := Subsingleton.elim i 0
  rw [hi]
  rfl

/-- The final state of the two-thread error run: both requests finished
with the same construction error, nothing cached, and the factory was
invoked twice. -/
def cacheCEFinal : CacheSt 2 :=
  ⟨none, none, 2,
   updThreads (updThreads (updThreads (updThreads (initCacheSt 2).threads
       0 ⟨.lookedUp none, none⟩)
       0 ⟨.done, some (.error "boom")⟩)
       1 ⟨.lookedUp none, none⟩)
     1 ⟨.done, some (.error "boom")⟩⟩

/-- C9 counterexample: when the factory fails, the constructor does not
run exactly once.  Two serialized requests for the same uninitialized
name each miss (a construction error inserts nothing), so the factory is
invoked twice; the state below is reachable, both threads are finished,
and the construction count is 2. -/
theorem cache_error_double_construction_counterexample :
    CacheReachable (.error "boom") 2 cacheCEFinal
    ∧ cacheCEFinal.createCount = 2
    ∧ (cacheCEFinal.threads 0).phase = .done
    ∧ (cacheCEFinal.threads 1).phase = .done := by
  refine ⟨?_, rfl, rfl, rfl⟩
  exact CacheReachable.step
    (CacheReachable.step
      (CacheReachable.step
        (CacheReachable.step CacheReachable.init
          (CacheStep.lockLookup (initCacheSt 2) 0 rfl rfl))
        (CacheStep.finishMissErr _ 0 "boom" rfl rfl rfl))
      (CacheStep.lockLookup _ 1 rfl rfl))
    (CacheStep.finishMissErr _ 1 "boom" rfl rfl rfl)
